import Mathlib

/-!
Verification of the Vikhlinin density-profile fitting utility
(`vikhlinin/fitter.py`) against its specification.

The numeric pipeline is embedded shallowly over the real numbers:
NumPy arrays become `List ℝ`, element-wise float power becomes `Real.rpow`
(written `x ^ y` with a real exponent), `np.log10` becomes `Real.logb 10`,
and unyt quantities become a value paired with an abstract unit tag.
The external SciPy optimizer (`scipy.optimize.minimize`, library code that
is not part of this repository) is abstracted as a function from the
objective, the starting vector and the bounds to an optimizer result; the
NumPy `float32` downcast (also external library behaviour) is abstracted
as a function `ℝ → ℝ` supplied to the construction.
-/

/-- Default starting parameters `starting_parameters_default` from
`fitter.py`: `[3.e-3, 0.1, 0.6, 0.5, 0.4, 1.2]`. -/
def starting_parameters_default : List ℝ := [3e-3, 0.1, 0.6, 0.5, 0.4, 1.2]

/-- Default parameter bounds `parameter_bounds_default` from `fitter.py`.
`np.inf` is modelled as `⊤ : EReal`, so each bound is a pair
`(lower : ℝ, upper : EReal)`. -/
def parameter_bounds_default : List (ℝ × EReal) :=
  [(0, ⊤), (0, ⊤), (0, ⊤), (0, ⊤), (0, ⊤), (0, 5)]

/-- Element-wise body of `vikhlinin_density_model` (the Python function is
NumPy-vectorised; this is its value at a single radius):
`term1 = (radius / r_core) ** (-alpha / 2)`,
`term2 = (1 + (radius / r_core) ** 2) ** (3 * beta / 2 - alpha / 4)`,
`term3 = (1 + (radius / r_scale) ** 3) ** (epsilon / 6)`,
returning `n_0 * term1 / term2 / term3` (the non-log value). -/
noncomputable def vikhlinin_density_value (radius n_0 r_core r_scale alpha beta epsilon : ℝ) : ℝ :=
  let term1 := (radius / r_core) ^ (-alpha / 2)
  let term2 := (1 + (radius / r_core) ^ 2) ^ (3 * beta / 2 - alpha / 4)
  let term3 := (1 + (radius / r_scale) ^ 3) ^ (epsilon / 6)
  n_0 * term1 / term2 / term3

/-- `vikhlinin_density_model` from `fitter.py`, acting element-wise on the
radius array: returns `np.log10(n_0 * term1 / term2 / term3)` when
`yield_log` is set, and the plain value otherwise. -/
noncomputable def vikhlinin_density_model (radius : List ℝ)
    (n_0 r_core r_scale alpha beta epsilon : ℝ) (yield_log : Bool) : List ℝ :=
  if yield_log then
    radius.map (fun r => Real.logb 10 (vikhlinin_density_value r n_0 r_core r_scale alpha beta epsilon))
  else
    radius.map (fun r => vikhlinin_density_value r n_0 r_core r_scale alpha beta epsilon)

/-- The Python call `vikhlinin_density_model(radius, *p)` unpacks a
6-vector into the positional parameters (with `yield_log` defaulting to
`True` at every such call site). -/
noncomputable def vikhlinin_density_model_vec (radius : List ℝ) (p : List ℝ)
    (yield_log : Bool) : List ℝ :=
  vikhlinin_density_model radius (p.getD 0 0) (p.getD 1 0) (p.getD 2 0)
    (p.getD 3 0) (p.getD 4 0) (p.getD 5 0) yield_log

/-- `VikhlininProfile.residuals_density` from `fitter.py`:
`density_model = vikhlinin_density_model(radius_data, *free_parameters)`
(log form), `error = density_model - density_data`,
`return np.sum(error * error)`. -/
noncomputable def residuals_density (free_parameters density_data radius_data : List ℝ) : ℝ :=
  let density_model := vikhlinin_density_model_vec radius_data free_parameters true
  let error := List.zipWith (fun m d => m - d) density_model density_data
  (List.zipWith (fun a b => a * b) error error).sum

/-- The result object returned by `scipy.optimize.minimize`
(`OptimizeResult`): the fitted vector `x`, the `success` flag, the
termination `message` and the iteration count `nit`. -/
structure OptimizeResult where
  x : List ℝ
  success : Bool
  message : String
  nit : ℕ

/-- Abstraction of the external bounded optimizer
`scipy.optimize.minimize(objective, start, bounds=...)`: any function from
the objective, the starting vector and the bounds to an `OptimizeResult`. -/
abbrev Optimizer : Type :=
  (List ℝ → ℝ) → List ℝ → List (ℝ × EReal) → OptimizeResult

/-- A `unyt` quantity: a real value carrying a unit tag of abstract type
`U`. -/
structure UnytQuantity (U : Type) where
  val : ℝ
  units : U

/-- The fully constructed `VikhlininProfile` object: the stored inputs and
every attribute set by `__init__` / `run_hse_fit`.  The `warnings.warn`
side effect is modelled by the list `warnings_emitted` of warning
messages produced during construction. -/
structure VikhlininProfile (U : Type) where
  radii : List ℝ
  radii_units : U
  density_profile : List ℝ
  density_units : U
  starting_parameters : List ℝ
  parameter_bounds : List (ℝ × EReal)
  density_fit_params : OptimizeResult
  warnings_emitted : List String
  density_profile_hse : List ℝ
  n_0 : UnytQuantity U
  r_core : UnytQuantity U
  r_scale : UnytQuantity U
  alpha : ℝ
  beta : ℝ
  epsilon : ℝ
  success : Bool
  message : String
  n_iterations : ℕ

/-- `VikhlininProfile.density_fit` from `fitter.py`: run the optimizer on
`residuals_density` with `args=(y, x)`, and when `optimize_result.success`
is false emit the non-fatal warning; the result is returned either way.
The pair collects the result and the warnings emitted. -/
noncomputable def density_fit (optimize : Optimizer) (starting_parameters : List ℝ)
    (parameter_bounds : List (ℝ × EReal)) (x y : List ℝ) : OptimizeResult × List String :=
  let optimize_result :=
    optimize (fun free_parameters => residuals_density free_parameters y x)
      starting_parameters parameter_bounds
  (optimize_result,
    if optimize_result.success then []
    else ["Fit optimization did not succeed. Try a different method or different options."])

/-- `VikhlininProfile.__init__` together with `run_hse_fit` from
`fitter.py`: store the inputs, fit against `np.log10(density_profile)`,
set `density_profile_hse = 10 ** vikhlinin_density_model(radii, *x)`,
unpack the six fitted scalars in order, re-attach units to the first three
after the `np.float32` downcast (abstracted as `float32 : ℝ → ℝ`), and
record the optimizer diagnostics. -/
noncomputable def VikhlininProfile.init (U : Type) (optimize : Optimizer) (float32 : ℝ → ℝ)
    (radii : List ℝ) (radii_units : U) (density_profile : List ℝ) (density_units : U)
    (start_params : List ℝ) (param_bounds : List (ℝ × EReal)) : VikhlininProfile U :=
  let fit := density_fit optimize start_params param_bounds radii
    (density_profile.map (fun d => Real.logb 10 d))
  let res := fit.1
  { radii := radii
    radii_units := radii_units
    density_profile := density_profile
    density_units := density_units
    starting_parameters := start_params
    parameter_bounds := param_bounds
    density_fit_params := res
    warnings_emitted := fit.2
    density_profile_hse :=
      (vikhlinin_density_model_vec radii res.x true).map (fun v => (10 : ℝ) ^ v)
    n_0 := ⟨float32 (res.x.getD 0 0), density_units⟩
    r_core := ⟨float32 (res.x.getD 1 0), radii_units⟩
    r_scale := ⟨float32 (res.x.getD 2 0), radii_units⟩
    alpha := res.x.getD 3 0
    beta := res.x.getD 4 0
    epsilon := res.x.getD 5 0
    success := res.success
    message := res.message
    n_iterations := res.nit }

/-- Construction when the caller omits the optional `start_params` and
`param_bounds` arguments: the Python defaults
`starting_parameters_default` and `parameter_bounds_default` are used. -/
noncomputable def VikhlininProfile.init_defaults (U : Type) (optimize : Optimizer)
    (float32 : ℝ → ℝ) (radii : List ℝ) (radii_units : U)
    (density_profile : List ℝ) (density_units : U) : VikhlininProfile U :=
  VikhlininProfile.init U optimize float32 radii radii_units density_profile density_units
    starting_parameters_default parameter_bounds_default

/-- C1: with `yield_log = False` the model returns, element-wise,
`n_0 * (r / r_core)^(-alpha/2) / (1 + (r / r_core)^2)^(3*beta/2 - alpha/4)
/ (1 + (r / r_scale)^3)^(epsilon/6)` (proved for every radii array, in
particular every positive one, and every 6-parameter vector). -/
theorem vikhlinin_density_model_nonlog_formula (radius : List ℝ)
    (n_0 r_core r_scale alpha beta epsilon : ℝ) :
    vikhlinin_density_model radius n_0 r_core r_scale alpha beta epsilon false =
      radius.map (fun r =>
        n_0 * (r / r_core) ^ (-alpha / 2)
          / (1 + (r / r_core) ^ 2) ^ (3 * beta / 2 - alpha / 4)
          / (1 + (r / r_scale) ^ 3) ^ (epsilon / 6)) := by
  simp [vikhlinin_density_model, vikhlinin_density_value]

/-- C3: the model with `yield_log = True` is, element-wise, the base-10
logarithm of the model with `yield_log = False` (proved for every radii
array and every 6-parameter vector). -/
theorem vikhlinin_density_model_log_eq_log10_nonlog (radius : List ℝ)
    (n_0 r_core r_scale alpha beta epsilon : ℝ) :
    vikhlinin_density_model radius n_0 r_core r_scale alpha beta epsilon true =
      (vikhlinin_density_model radius n_0 r_core r_scale alpha beta epsilon false).map
        (fun v => Real.logb 10 v) := by
  simp [vikhlinin_density_model, List.map_map, Function.comp]

/-- C10: the non-log model is homogeneous of degree 1 in the
normalisation `n_0`: scaling `n_0` by `k` scales every output element by
`k` (proved for every real `k`, in particular every positive one). -/
theorem vikhlinin_density_model_homogeneous_n_0 (radius : List ℝ)
    (k n_0 r_core r_scale alpha beta epsilon : ℝ) :
    vikhlinin_density_model radius (k * n_0) r_core r_scale alpha beta epsilon false =
      (vikhlinin_density_model radius n_0 r_core r_scale alpha beta epsilon false).map
        (fun v => k * v) := by
  simp only [vikhlinin_density_model, if_neg Bool.false_ne_true, List.map_map]
  refine List.map_congr_left (fun r _ => ?_)
  simp only [Function.comp, vikhlinin_density_value]
  ring

/-- Helper: the element-wise product of the error list with itself is the
list of squared differences. -/
lemma zipWith_mul_self_eq_sq (a b : List ℝ) :
    List.zipWith (fun u v => u * v)
        (List.zipWith (fun m d => m - d) a b) (List.zipWith (fun m d => m - d) a b) =
      List.zipWith (fun m d => (m - d) ^ 2) a b := by
  induction a generalizing b with
  | nil => simp
  | cons u us ih =>
    cases b with
    | nil => rfl
    | cons v vs => simp only [List.zipWith_cons_cons, ih, pow_two]

/-- Helper: a sum of squared differences is nonnegative. -/
lemma sum_zipWith_sq_nonneg (a b : List ℝ) :
    0 ≤ (List.zipWith (fun m d => (m - d) ^ 2) a b).sum := by
  induction a generalizing b with
  | nil => simp
  | cons u us ih =>
    cases b with
    | nil => simp
    | cons v vs => simpa using add_nonneg (sq_nonneg (u - v)) (ih vs)

/-- C4: for equal-length radius and log-density arrays, `residuals_density`
returns the sum over all elements of the squared difference between the
model's log-density prediction and the observed log-density, and that
value is nonnegative. -/
theorem residuals_density_sum_of_squares (free_parameters density_data radius_data : List ℝ)
    (h : density_data.length = radius_data.length) :
    residuals_density free_parameters density_data radius_data =
      (List.zipWith (fun m d => (m - d) ^ 2)
        (vikhlinin_density_model_vec radius_data free_parameters true) density_data).sum ∧
    0 ≤ residuals_density free_parameters density_data radius_data := by
  constructor
  · simp only [residuals_density]
    rw [zipWith_mul_self_eq_sq]
  · simp only [residuals_density]
    rw [zipWith_mul_self_eq_sq]
    exact sum_zipWith_sq_nonneg _ _

/-- Witness for C4 at `free_parameters = [1,1,1,1,1,1]`,
`density_data = [0]`, `radius_data = [1]`. -/
theorem residuals_density_sum_of_squares_witness :
    ([(0 : ℝ)] : List ℝ).length = ([(1 : ℝ)] : List ℝ).length ∧
    (residuals_density [1, 1, 1, 1, 1, 1] [0] [1] =
      (List.zipWith (fun m d => (m - d) ^ 2)
        (vikhlinin_density_model_vec [1] [1, 1, 1, 1, 1, 1] true) [0]).sum ∧
    0 ≤ residuals_density [1, 1, 1, 1, 1, 1] [0] [1]) :=
  ⟨rfl, residuals_density_sum_of_squares [1, 1, 1, 1, 1, 1] [0] [1] rfl⟩

/-- C7: when the optional arguments are omitted, the estimator stores the
default starting vector `[3e-3, 0.1, 0.6, 0.5, 0.4, 1.2]` and a bounds
list of exactly 6 pairs, all `[0, ∞)` except the sixth, which is
`[0, 5]`. -/
theorem init_defaults_parameters (U : Type) (optimize : Optimizer) (float32 : ℝ → ℝ)
    (radii : List ℝ) (radii_units : U) (density_profile : List ℝ) (density_units : U) :
    let P := VikhlininProfile.init_defaults U optimize float32 radii radii_units
      density_profile density_units
    P.starting_parameters = [3e-3, 0.1, 0.6, 0.5, 0.4, 1.2] ∧
    P.parameter_bounds.length = 6 ∧
    P.parameter_bounds = [(0, ⊤), (0, ⊤), (0, ⊤), (0, ⊤), (0, ⊤), (0, 5)] :=
  ⟨rfl, rfl, rfl⟩

/-- C8: the six fitted scalars are unpacked, in order, into `n_0`,
`r_core`, `r_scale`, `alpha`, `beta`, `epsilon`; the `float32` downcast is
applied to the first three and only those, `n_0` carries the density
unit, `r_core` and `r_scale` carry the radius unit, and `alpha`, `beta`,
`epsilon` are stored as plain scalars with no downcast. -/
theorem run_hse_fit_unpacking (U : Type) (optimize : Optimizer) (float32 : ℝ → ℝ)
    (radii : List ℝ) (radii_units : U) (density_profile : List ℝ) (density_units : U)
    (start_params : List ℝ) (param_bounds : List (ℝ × EReal)) :
    let P := VikhlininProfile.init U optimize float32 radii radii_units
      density_profile density_units start_params param_bounds
    P.n_0 = ⟨float32 (P.density_fit_params.x.getD 0 0), density_units⟩ ∧
    P.r_core = ⟨float32 (P.density_fit_params.x.getD 1 0), radii_units⟩ ∧
    P.r_scale = ⟨float32 (P.density_fit_params.x.getD 2 0), radii_units⟩ ∧
    P.alpha = P.density_fit_params.x.getD 3 0 ∧
    P.beta = P.density_fit_params.x.getD 4 0 ∧
    P.epsilon = P.density_fit_params.x.getD 5 0 :=
  ⟨rfl, rfl, rfl, rfl, rfl, rfl⟩

/-- C9: every element of the stored `density_profile_hse` is strictly
positive, because each is `10` raised to a real power. -/
theorem density_profile_hse_pos (U : Type) (optimize : Optimizer) (float32 : ℝ → ℝ)
    (radii : List ℝ) (radii_units : U) (density_profile : List ℝ) (density_units : U)
    (start_params : List ℝ) (param_bounds : List (ℝ × EReal)) (v : ℝ)
    (hv : v ∈ (VikhlininProfile.init U optimize float32 radii radii_units
      density_profile density_units start_params param_bounds).density_profile_hse) :
    0 < v := by
  simp only [VikhlininProfile.init, List.mem_map] at hv
  obtain ⟨w, -, rfl⟩ := hv
  exact Real.rpow_pos_of_pos (by norm_num) w

/-- Helper: the non-log model value is strictly positive when the radius,
the normalisation and both scale radii are strictly positive. -/
lemma vikhlinin_density_value_pos (radius n_0 r_core r_scale alpha beta epsilon : ℝ)
    (hr : 0 < radius) (hn : 0 < n_0) (hc : 0 < r_core) (hs : 0 < r_scale) :
    0 < vikhlinin_density_value radius n_0 r_core r_scale alpha beta epsilon := by
  have h1 : (0 : ℝ) < (radius / r_core) ^ (-alpha / 2) :=
    Real.rpow_pos_of_pos (div_pos hr hc) _
  have h2 : (0 : ℝ) < (1 + (radius / r_core) ^ 2) ^ (3 * beta / 2 - alpha / 4) :=
    Real.rpow_pos_of_pos (by positivity) _
  have h3 : (0 : ℝ) < (1 + (radius / r_scale) ^ 3) ^ (epsilon / 6) :=
    Real.rpow_pos_of_pos (by positivity) _
  simp only [vikhlinin_density_value]
  exact div_pos (div_pos (mul_pos hn h1) h2) h3

/-- C2: the stored `density_profile_hse` equals the model evaluated in
non-log form at the input radii with the fitted parameter vector
`density_fit_params.x`, whenever the radii and the fitted `n_0`, `r_core`
and `r_scale` are strictly positive. -/
theorem density_profile_hse_eq_nonlog_model (U : Type) (optimize : Optimizer)
    (float32 : ℝ → ℝ) (radii : List ℝ) (radii_units : U)
    (density_profile : List ℝ) (density_units : U)
    (start_params : List ℝ) (param_bounds : List (ℝ × EReal))
    (hr : ∀ r ∈ radii, 0 < r)
    (hn : 0 < (VikhlininProfile.init U optimize float32 radii radii_units
      density_profile density_units start_params param_bounds).density_fit_params.x.getD 0 0)
    (hc : 0 < (VikhlininProfile.init U optimize float32 radii radii_units
      density_profile density_units start_params param_bounds).density_fit_params.x.getD 1 0)
    (hs : 0 < (VikhlininProfile.init U optimize float32 radii radii_units
      density_profile density_units start_params param_bounds).density_fit_params.x.getD 2 0) :
    (VikhlininProfile.init U optimize float32 radii radii_units
      density_profile density_units start_params param_bounds).density_profile_hse =
      vikhlinin_density_model_vec radii
        (VikhlininProfile.init U optimize float32 radii radii_units
          density_profile density_units start_params param_bounds).density_fit_params.x
        false := by
  simp only [VikhlininProfile.init, density_fit] at hn hc hs ⊢
  simp only [vikhlinin_density_model_vec, vikhlinin_density_model, if_true, List.map_map]
  refine List.map_congr_left (fun r hrm => ?_)
  simp only [Function.comp_apply]
  exact Real.rpow_logb (by norm_num) (by norm_num)
    (vikhlinin_density_value_pos r _ _ _ _ _ _ (hr r hrm) hn hc hs)

/-- Witness for C2: a constant optimizer returning the all-ones fitted
vector on radii `[1]` and density `[1]`, with the identity as the
`float32` downcast. -/
theorem density_profile_hse_eq_nonlog_model_witness :
    (∀ r ∈ ([1] : List ℝ), 0 < r) ∧
    0 < (VikhlininProfile.init Unit (fun _ _ _ => OptimizeResult.mk [1, 1, 1, 1, 1, 1] true "" 0)
      id [1] () [1] () [] []).density_fit_params.x.getD 0 0 ∧
    0 < (VikhlininProfile.init Unit (fun _ _ _ => OptimizeResult.mk [1, 1, 1, 1, 1, 1] true "" 0)
      id [1] () [1] () [] []).density_fit_params.x.getD 1 0 ∧
    0 < (VikhlininProfile.init Unit (fun _ _ _ => OptimizeResult.mk [1, 1, 1, 1, 1, 1] true "" 0)
      id [1] () [1] () [] []).density_fit_params.x.getD 2 0 ∧
    (VikhlininProfile.init Unit (fun _ _ _ => OptimizeResult.mk [1, 1, 1, 1, 1, 1] true "" 0)
      id [1] () [1] () [] []).density_profile_hse =
      vikhlinin_density_model_vec [1]
        (VikhlininProfile.init Unit (fun _ _ _ => OptimizeResult.mk [1, 1, 1, 1, 1, 1] true "" 0)
          id [1] () [1] () [] []).density_fit_params.x false := by
  have hr : ∀ r ∈ ([1] : List ℝ), 0 < r := by norm_num
  have h0 : 0 < (VikhlininProfile.init Unit
      (fun _ _ _ => OptimizeResult.mk [1, 1, 1, 1, 1, 1] true "" 0)
      id [1] () [1] () [] []).density_fit_params.x.getD 0 0 := by
    norm_num [VikhlininProfile.init, density_fit]
  have h1 : 0 < (VikhlininProfile.init Unit
      (fun _ _ _ => OptimizeResult.mk [1, 1, 1, 1, 1, 1] true "" 0)
      id [1] () [1] () [] []).density_fit_params.x.getD 1 0 := by
    norm_num [VikhlininProfile.init, density_fit]
  have h2 : 0 < (VikhlininProfile.init Unit
      (fun _ _ _ => OptimizeResult.mk [1, 1, 1, 1, 1, 1] true "" 0)
      id [1] () [1] () [] []).density_fit_params.x.getD 2 0 := by
    norm_num [VikhlininProfile.init, density_fit]
  exact ⟨hr, h0, h1, h2,
    density_profile_hse_eq_nonlog_model Unit
      (fun _ _ _ => OptimizeResult.mk [1, 1, 1, 1, 1, 1] true "" 0)
      id [1] () [1] () [] [] hr h0 h1 h2⟩

/-- Witness for C9: the single element of `density_profile_hse` for a
constant optimizer on radii `[1]` is strictly positive. -/
theorem density_profile_hse_pos_witness :
    (10 : ℝ) ^ Real.logb 10 (vikhlinin_density_value 1 1 1 1 1 1 1) ∈
      (VikhlininProfile.init Unit (fun _ _ _ => OptimizeResult.mk [1, 1, 1, 1, 1, 1] true "" 0)
        id [1] () [1] () [] []).density_profile_hse ∧
    0 < (10 : ℝ) ^ Real.logb 10 (vikhlinin_density_value 1 1 1 1 1 1 1) := by
  have hm : (10 : ℝ) ^ Real.logb 10 (vikhlinin_density_value 1 1 1 1 1 1 1) ∈
      (VikhlininProfile.init Unit (fun _ _ _ => OptimizeResult.mk [1, 1, 1, 1, 1, 1] true "" 0)
        id [1] () [1] () [] []).density_profile_hse := by
    simp [VikhlininProfile.init, density_fit, vikhlinin_density_model_vec,
      vikhlinin_density_model]
  exact ⟨hm, density_profile_hse_pos Unit
    (fun _ _ _ => OptimizeResult.mk [1, 1, 1, 1, 1, 1] true "" 0)
    id [1] () [1] () [] [] _ hm⟩

/-- C5: when the optimizer reports non-convergence, the constructed
estimator emits exactly the non-fatal warning "Fit optimization did not
succeed. Try a different method or different options." (a message
beginning "Fit optimization did not succeed"), construction still
completes (the construction function is total, so no error is raised),
and every result attribute — the fitted vector, the reconstructed curve,
the six named parameters, the message and the iteration count — is
recorded exactly as it would be for the same optimizer output with the
success flag set, which emits no warning. -/
theorem nonconvergence_warns_and_proceeds (U : Type) (optimize : Optimizer)
    (float32 : ℝ → ℝ) (radii : List ℝ) (radii_units : U)
    (density_profile : List ℝ) (density_units : U)
    (start_params : List ℝ) (param_bounds : List (ℝ × EReal))
    (h : (VikhlininProfile.init U optimize float32 radii radii_units
      density_profile density_units start_params param_bounds).success = false) :
    let P := VikhlininProfile.init U optimize float32 radii radii_units
      density_profile density_units start_params param_bounds
    let Q := VikhlininProfile.init U
      (fun objective start bounds => { optimize objective start bounds with success := true })
      float32 radii radii_units density_profile density_units start_params param_bounds
    P.warnings_emitted =
      ["Fit optimization did not succeed. Try a different method or different options."] ∧
    P.density_fit_params.x = Q.density_fit_params.x ∧
    P.density_profile_hse = Q.density_profile_hse ∧
    P.n_0 = Q.n_0 ∧ P.r_core = Q.r_core ∧ P.r_scale = Q.r_scale ∧
    P.alpha = Q.alpha ∧ P.beta = Q.beta ∧ P.epsilon = Q.epsilon ∧
    P.message = Q.message ∧ P.n_iterations = Q.n_iterations ∧
    Q.warnings_emitted = [] := by
  simp only [VikhlininProfile.init, density_fit] at h ⊢
  simp [h]

/-- Witness for C5: a constant optimizer that reports non-convergence. -/
theorem nonconvergence_warns_and_proceeds_witness :
    (VikhlininProfile.init Unit
      (fun _ _ _ => OptimizeResult.mk [1, 1, 1, 1, 1, 1] false "ABNORMAL" 7)
      id [1] () [1] () [] []).success = false ∧
    (let P := VikhlininProfile.init Unit
        (fun _ _ _ => OptimizeResult.mk [1, 1, 1, 1, 1, 1] false "ABNORMAL" 7)
        id [1] () [1] () [] []
      let Q := VikhlininProfile.init Unit
        (fun objective start bounds =>
          { (fun (_ : List ℝ → ℝ) (_ : List ℝ) (_ : List (ℝ × EReal)) =>
              OptimizeResult.mk [1, 1, 1, 1, 1, 1] false "ABNORMAL" 7) objective start bounds
            with success := true })
        id [1] () [1] () [] []
      P.warnings_emitted =
        ["Fit optimization did not succeed. Try a different method or different options."] ∧
      P.density_fit_params.x = Q.density_fit_params.x ∧
      P.density_profile_hse = Q.density_profile_hse ∧
      P.n_0 = Q.n_0 ∧ P.r_core = Q.r_core ∧ P.r_scale = Q.r_scale ∧
      P.alpha = Q.alpha ∧ P.beta = Q.beta ∧ P.epsilon = Q.epsilon ∧
      P.message = Q.message ∧ P.n_iterations = Q.n_iterations ∧
      Q.warnings_emitted = []) := by
  have h : (VikhlininProfile.init Unit
      (fun _ _ _ => OptimizeResult.mk [1, 1, 1, 1, 1, 1] false "ABNORMAL" 7)
      id [1] () [1] () [] []).success = false := rfl
  exact ⟨h, nonconvergence_warns_and_proceeds Unit
    (fun _ _ _ => OptimizeResult.mk [1, 1, 1, 1, 1, 1] false "ABNORMAL" 7)
    id [1] () [1] () [] [] h⟩

/-- Helper: factored form of the non-log model value.  For positive
radius and scale radii, the `r^(-alpha/2)` term combines with the
`alpha/4` part of the second exponent into a single factor with a
nonnegative exponent, leaving only nonnegative exponents of
monotone bases. -/
lemma vikhlinin_density_value_factored (radius n_0 r_core r_scale alpha beta epsilon : ℝ)
    (hr : 0 < radius) (hc : 0 < r_core) (hs : 0 < r_scale) :
    vikhlinin_density_value radius n_0 r_core r_scale alpha beta epsilon =
      n_0 * (1 + (r_core / radius) ^ 2) ^ (alpha / 4)
        / (1 + (radius / r_core) ^ 2) ^ (3 * beta / 2)
        / (1 + (radius / r_scale) ^ 3) ^ (epsilon / 6) := by
  have hx : (0 : ℝ) < radius / r_core := div_pos hr hc
  have hb : (0 : ℝ) < 1 + (radius / r_core) ^ 2 := by positivity
  have h1 : (radius / r_core) ^ (-alpha / 2)
      = ((radius / r_core) ^ 2 : ℝ) ^ (-(alpha / 4)) := by
    rw [← Real.rpow_natCast (radius / r_core) 2, ← Real.rpow_mul hx.le]
    congr 1
    push_cast
    ring
  have h2 : (1 + (radius / r_core) ^ 2) ^ (3 * beta / 2 - alpha / 4)
      = (1 + (radius / r_core) ^ 2) ^ (3 * beta / 2)
        * (1 + (radius / r_core) ^ 2) ^ (-(alpha / 4)) := by
    rw [← Real.rpow_add hb, sub_eq_add_neg]
  have h3 : (1 + (r_core / radius) ^ 2) ^ (alpha / 4)
      = ((radius / r_core) ^ 2 : ℝ) ^ (-(alpha / 4))
        * (1 + (radius / r_core) ^ 2) ^ (alpha / 4) := by
    rw [Real.rpow_neg (by positivity), ← Real.inv_rpow (by positivity),
      ← Real.mul_rpow (by positivity) hb.le]
    congr 1
    field_simp
    ring
  have hS : (1 + (radius / r_core) ^ 2) ^ (alpha / 4)
      = ((1 + (radius / r_core) ^ 2) ^ (-(alpha / 4)))⁻¹ := by
    rw [Real.rpow_neg hb.le, inv_inv]
  simp only [vikhlinin_density_value]
  rw [h1, h2, h3, hS]
  ring

/-- Helper: comparison of two products `n * A / B / C` of positive
factors, given factor-wise bounds with at least one strict. -/
lemma prod3_div_lt (n A1 A2 B1 B2 C1 C2 : ℝ) (hn : 0 < n)
    (hA1 : 0 < A1) (hA2 : 0 < A2) (hB1 : 0 < B1) (hB2 : 0 < B2)
    (hC1 : 0 < C1) (hC2 : 0 < C2)
    (hA : A2 ≤ A1) (hB : B1 ≤ B2) (hC : C1 ≤ C2)
    (hstrict : A2 < A1 ∨ B1 < B2 ∨ C1 < C2) :
    n * A2 / B2 / C2 < n * A1 / B1 / C1 := by
  rw [div_div, div_div, div_lt_div_iff (by positivity) (by positivity)]
  rcases hstrict with h | h | h
  · calc n * A2 * (B1 * C1) < n * A1 * (B1 * C1) :=
          mul_lt_mul_of_pos_right (mul_lt_mul_of_pos_left h hn) (mul_pos hB1 hC1)
      _ ≤ n * A1 * (B2 * C2) :=
          mul_le_mul_of_nonneg_left (mul_le_mul hB hC hC1.le hB2.le) (by positivity)
  · calc n * A2 * (B1 * C1) ≤ n * A1 * (B1 * C1) :=
          mul_le_mul_of_nonneg_right
            (mul_le_mul_of_nonneg_left hA hn.le) (mul_pos hB1 hC1).le
      _ < n * A1 * (B2 * C2) :=
          mul_lt_mul_of_pos_left (mul_lt_mul h hC hC1 hB2.le) (mul_pos hn hA1)
  · calc n * A2 * (B1 * C1) ≤ n * A1 * (B1 * C1) :=
          mul_le_mul_of_nonneg_right
            (mul_le_mul_of_nonneg_left hA hn.le) (mul_pos hB1 hC1).le
      _ < n * A1 * (B2 * C2) :=
          mul_lt_mul_of_pos_left (mul_lt_mul' hB h hC1.le hB2) (mul_pos hn hA1)

/-- C6 counterexample: the parameter set `n_0 = 1`, `r_core = 1`,
`r_scale = 1`, `alpha = 0`, `beta = 0`, `epsilon = 0` lies inside the
default bounds' feasible region, yet the non-log model value at radius
`2` is not strictly less than at radius `1` (the model is constant there),
so the claim as stated is false. -/
theorem vikhlinin_density_model_not_strictly_decreasing :
    ¬ ((vikhlinin_density_model [2] 1 1 1 0 0 0 false).getD 0 0 <
        (vikhlinin_density_model [1] 1 1 1 0 0 0 false).getD 0 0) := by
  have e2 : (vikhlinin_density_model [2] 1 1 1 0 0 0 false).getD 0 0 = 1 := by
    norm_num [vikhlinin_density_model, vikhlinin_density_value]
  have e1 : (vikhlinin_density_model [1] 1 1 1 0 0 0 false).getD 0 0 = 1 := by
    norm_num [vikhlinin_density_model, vikhlinin_density_value]
  rw [e1, e2]
  exact lt_irrefl 1

/-- C6 amended: for strictly positive `n_0`, `r_core`, `r_scale`,
nonnegative shape exponents inside the default bounds with at least one
of `alpha`, `beta`, `epsilon` strictly positive, the non-log model value
is strictly decreasing in radius. -/
theorem vikhlinin_density_value_strict_anti
    (n_0 r_core r_scale alpha beta epsilon r1 r2 : ℝ)
    (hn : 0 < n_0) (hc : 0 < r_core) (hs : 0 < r_scale)
    (ha : 0 ≤ alpha) (hbeta : 0 ≤ beta) (he : 0 ≤ epsilon) (he5 : epsilon ≤ 5)
    (hone : 0 < alpha ∨ 0 < beta ∨ 0 < epsilon)
    (hr1 : 0 < r1) (hr12 : r1 < r2) :
    vikhlinin_density_value r2 n_0 r_core r_scale alpha beta epsilon <
      vikhlinin_density_value r1 n_0 r_core r_scale alpha beta epsilon := by
  have hr2 : 0 < r2 := hr1.trans hr12
  rw [vikhlinin_density_value_factored r1 n_0 r_core r_scale alpha beta epsilon hr1 hc hs,
      vikhlinin_density_value_factored r2 n_0 r_core r_scale alpha beta epsilon hr2 hc hs]
  have hbaA : 1 + (r_core / r2) ^ 2 < 1 + (r_core / r1) ^ 2 := by
    have hd : r_core / r2 < r_core / r1 := div_lt_div_of_pos_left hc hr1 hr12
    have := pow_lt_pow_left hd (by positivity) (two_ne_zero)
    linarith
  have hbaB : 1 + (r1 / r_core) ^ 2 < 1 + (r2 / r_core) ^ 2 := by
    have hd : r1 / r_core < r2 / r_core := by
      exact div_lt_div_of_pos_right hr12 hc
    have := pow_lt_pow_left hd (by positivity) (two_ne_zero)
    linarith
  have hbaC : 1 + (r1 / r_scale) ^ 3 < 1 + (r2 / r_scale) ^ 3 := by
    have hd : r1 / r_scale < r2 / r_scale := by
      exact div_lt_div_of_pos_right hr12 hs
    have := pow_lt_pow_left hd (by positivity) (three_ne_zero)
    linarith
  have hA : (1 + (r_core / r2) ^ 2) ^ (alpha / 4) ≤ (1 + (r_core / r1) ^ 2) ^ (alpha / 4) :=
    Real.rpow_le_rpow (by positivity) hbaA.le (div_nonneg ha (by norm_num))
  have hB : (1 + (r1 / r_core) ^ 2) ^ (3 * beta / 2) ≤ (1 + (r2 / r_core) ^ 2) ^ (3 * beta / 2) :=
    Real.rpow_le_rpow (by positivity) hbaB.le
      (div_nonneg (mul_nonneg (by norm_num) hbeta) (by norm_num))
  have hC : (1 + (r1 / r_scale) ^ 3) ^ (epsilon / 6) ≤ (1 + (r2 / r_scale) ^ 3) ^ (epsilon / 6) :=
    Real.rpow_le_rpow (by positivity) hbaC.le (div_nonneg he (by norm_num))
  refine prod3_div_lt n_0 _ _ _ _ _ _ hn
    (Real.rpow_pos_of_pos (by positivity) _) (Real.rpow_pos_of_pos (by positivity) _)
    (Real.rpow_pos_of_pos (by positivity) _) (Real.rpow_pos_of_pos (by positivity) _)
    (Real.rpow_pos_of_pos (by positivity) _) (Real.rpow_pos_of_pos (by positivity) _)
    hA hB hC ?_
  rcases hone with h | h | h
  · exact Or.inl (Real.rpow_lt_rpow (by positivity) hbaA (div_pos h (by norm_num)))
  · exact Or.inr (Or.inl (Real.rpow_lt_rpow (by positivity) hbaB
      (div_pos (mul_pos (by norm_num) h) (by norm_num))))
  · exact Or.inr (Or.inr (Real.rpow_lt_rpow (by positivity) hbaC
      (div_pos h (by norm_num))))

/-- Witness for the amended C6 at `n_0 = r_core = r_scale = 1`,
`alpha = 1`, `beta = epsilon = 0`, radii `r1 = 1 < r2 = 2`. -/
theorem vikhlinin_density_value_strict_anti_witness :
    (0 : ℝ) < 1 ∧ (0 : ℝ) ≤ 1 ∧ (0 : ℝ) ≤ 0 ∧ (0 : ℝ) ≤ 5 ∧
    ((0 : ℝ) < 1 ∨ (0 : ℝ) < 0 ∨ (0 : ℝ) < 0) ∧ (1 : ℝ) < 2 ∧
    vikhlinin_density_value 2 1 1 1 1 0 0 < vikhlinin_density_value 1 1 1 1 1 0 0 :=
  ⟨by norm_num, by norm_num, le_refl 0, by norm_num, Or.inl (by norm_num), by norm_num,
    vikhlinin_density_value_strict_anti 1 1 1 1 0 0 1 2
      (by norm_num) (by norm_num) (by norm_num) (by norm_num) (le_refl 0)
      (by norm_num) (by norm_num) (Or.inl (by norm_num)) (by norm_num) (by norm_num)⟩
